import Mathlib

/-!
Shallow embedding of the tiff-composer core (src/tiffcomposer) in Lean 4.

Python floats are modelled as exact numbers: rational numbers for the
coordinate bookkeeping (validation, conversions, affine windowing, pixel
lookup, aggregation) and real numbers for the transcendental distance
computation.  Python exceptions are modelled with explicit error values.
-/

namespace TiffComposer

/-- Errors raised by the coordinate module.  The source has a single
exception class GeoCoordinateError whose message distinguishes the latitude
and the longitude bound violations; the two constructors mirror the two
messages of src/tiffcomposer/core/coordinates.py. -/
inductive GeoCoordinateError where
  | latitudeOutOfRange
  | longitudeOutOfRange
deriving DecidableEq, Repr

/-- Errors of the surrounding Python runtime that the conversion helpers can
raise: a geo error forwarded from the constructor, a missing dictionary key
(Python KeyError in from_dict), or a wrong argument count (Python TypeError
in from_list). -/
inductive PyError where
  | geo (e : GeoCoordinateError)
  | keyError
  | typeError
deriving DecidableEq, Repr

/-- Geographic coordinate: the field state of a GeoCoordinate object
(src/tiffcomposer/core/coordinates.py, class GeoCoordinate). -/
structure GeoCoordinate where
  latitude : ℚ
  longitude : ℚ
deriving DecidableEq, Repr

namespace GeoCoordinate

/-- The latitude property setter (coordinates.py lines 31-43): the bound
check precedes the assignment, so on failure the returned state is the
unchanged object together with the raised error. -/
def setLatitudeState (c : GeoCoordinate) (v : ℚ) :
    GeoCoordinate × Option GeoCoordinateError :=
  if -90 ≤ v ∧ v ≤ 90 then ({ c with latitude := v }, none)
  else (c, some .latitudeOutOfRange)

/-- The longitude property setter (coordinates.py lines 54-66): the bound
check precedes the assignment, so on failure the returned state is the
unchanged object together with the raised error. -/
def setLongitudeState (c : GeoCoordinate) (v : ℚ) :
    GeoCoordinate × Option GeoCoordinateError :=
  if -180 ≤ v ∧ v ≤ 180 then ({ c with longitude := v }, none)
  else (c, some .longitudeOutOfRange)

/-- The constructor (coordinates.py lines 18-20): assigns latitude through
its setter, then longitude through its setter; the first raised error
aborts construction. -/
def new (lat lon : ℚ) : Except GeoCoordinateError GeoCoordinate :=
  match setLatitudeState ⟨0, 0⟩ lat with
  | (_, some e) => .error e
  | (c1, none) =>
    match setLongitudeState c1 lon with
    | (_, some e) => .error e
    | (c2, none) => .ok c2

/-- The inverted property (coordinates.py lines 68-75): builds a new
GeoCoordinate with latitude and longitude swapped, which re-validates both
fields through the constructor. -/
def inverted (c : GeoCoordinate) : Except GeoCoordinateError GeoCoordinate :=
  new c.longitude c.latitude

/-- Conversion to a (latitude, longitude) pair (coordinates.py to_tuple). -/
def toTuple (c : GeoCoordinate) : ℚ × ℚ := (c.latitude, c.longitude)

/-- Conversion to a [latitude, longitude] list (coordinates.py to_list). -/
def toList (c : GeoCoordinate) : List ℚ := [c.latitude, c.longitude]

/-- Conversion to a string-keyed mapping (coordinates.py to_dict), modelled
as an association list. -/
def toDict (c : GeoCoordinate) : List (String × ℚ) :=
  [("latitude", c.latitude), ("longitude", c.longitude)]

/-- Parse from a pair (coordinates.py from_tuple): unpacks into the
constructor. -/
def from_tuple (v : ℚ × ℚ) : Except GeoCoordinateError GeoCoordinate :=
  new v.1 v.2

/-- Parse from a list (coordinates.py from_list): unpacking into the
two-argument constructor raises a Python TypeError unless the list has
exactly two elements. -/
def from_list (v : List ℚ) : Except PyError GeoCoordinate :=
  match v with
  | [a, b] => (new a b).mapError PyError.geo
  | _ => .error .typeError

/-- Parse from a string-keyed mapping (coordinates.py from_dict): a missing
key is a Python KeyError. -/
def from_dict (v : List (String × ℚ)) : Except PyError GeoCoordinate :=
  match v.lookup "latitude", v.lookup "longitude" with
  | some la, some lo => (new la lo).mapError PyError.geo
  | _, _ => .error .keyError

/-- Component-wise addition (coordinates.py lines 247-256): the result is
built with the GeoCoordinate constructor, so it passes through both bound
checks. -/
def add (a b : GeoCoordinate) : Except GeoCoordinateError GeoCoordinate :=
  new (a.latitude + b.latitude) (a.longitude + b.longitude)

/-- Component-wise subtraction (coordinates.py lines 258-267): the result is
built with the GeoCoordinate constructor, so it passes through both bound
checks. -/
def sub (a b : GeoCoordinate) : Except GeoCoordinateError GeoCoordinate :=
  new (a.latitude - b.latitude) (a.longitude - b.longitude)

end GeoCoordinate

/-- Geographic coordinate extent (coordinates.py, class GeoCoordinateExtent):
two GeoCoordinate corners. -/
structure GeoCoordinateExtent where
  start : GeoCoordinate
  «end» : GeoCoordinate
deriving DecidableEq, Repr

namespace GeoCoordinateExtent

/-- Extent to tuple (coordinates.py line 309): returns
(start.longitude, end.latitude, end.longitude, start.latitude). -/
def toTuple (e : GeoCoordinateExtent) : ℚ × ℚ × ℚ × ℚ :=
  (e.start.longitude, e.«end».latitude, e.«end».longitude, e.start.latitude)

/-- Extent to list (coordinates.py line 313): same order as to_tuple. -/
def toList (e : GeoCoordinateExtent) : List ℚ :=
  [e.start.longitude, e.«end».latitude, e.«end».longitude, e.start.latitude]

/-- Extent to dictionary (coordinates.py lines 315-322): keys left, bottom,
right, top. -/
def toDict (e : GeoCoordinateExtent) : List (String × ℚ) :=
  [("left", e.start.longitude), ("bottom", e.start.latitude),
   ("right", e.«end».longitude), ("top", e.«end».latitude)]

/-- Bounding-box tuple as the specification words it: the tuple ordered
(left, bottom, right, top) under the mapping left = start.longitude,
bottom = start.latitude, right = end.longitude, top = end.latitude. -/
def bboxTupleSpec (e : GeoCoordinateExtent) : ℚ × ℚ × ℚ × ℚ :=
  (e.start.longitude, e.start.latitude, e.«end».longitude, e.«end».latitude)

/-- Bounding-box dictionary as the specification words it: keys left,
bottom, right, top under the same mapping. -/
def bboxDictSpec (e : GeoCoordinateExtent) : List (String × ℚ) :=
  [("left", e.start.longitude), ("bottom", e.start.latitude),
   ("right", e.«end».longitude), ("top", e.«end».latitude)]

end GeoCoordinateExtent

/-- Python int() truncation toward zero, on exact rationals: the numerator
divided by the (positive) denominator with truncating integer division. -/
def pytrunc (q : ℚ) : ℤ := q.num.tdiv q.den

/-- A rasterio Affine transform: x = a * col + b * row + c and
y = d * col + e * row + f. -/
structure Affine where
  a : ℚ
  b : ℚ
  c : ℚ
  d : ℚ
  e : ℚ
  f : ℚ
deriving DecidableEq, Repr

namespace Affine

/-- Determinant of the linear part. -/
def det (t : Affine) : ℚ := t.a * t.e - t.b * t.d

/-- Application of the inverse transform to a point (x, y): the unique
(u, v) with x = a * u + b * v + c and y = d * u + e * v + f, when the
determinant is nonzero.  Models rasterio's tilde-inverse applied to a
2-tuple. -/
def invApply (t : Affine) (p : ℚ × ℚ) : ℚ × ℚ :=
  ((t.e * (p.1 - t.c) - t.b * (p.2 - t.f)) / t.det,
   (t.a * (p.2 - t.f) - t.d * (p.1 - t.c)) / t.det)

end Affine

/-- A pixel window (col_off, row_off, width, height), as built by
clip_tiff_to_extent (src/tiffcomposer/utils/extent.py line 43). -/
structure Window where
  col_off : ℤ
  row_off : ℤ
  width : ℤ
  height : ℤ
deriving DecidableEq, Repr

/-- The window computation of clip_tiff_to_extent
(src/tiffcomposer/utils/extent.py lines 24-43): unpacks extent.to_tuple()
as (left, bottom, right, top), applies the inverse transform to
(left, top) naming the result (row_min, col_min) and to (right, bottom)
naming the result (row_max, col_max), truncates with int(), clamps
row_min and col_min below by 0 and row_max by the raster height and
col_max by the raster width, and builds the window
(col_min, row_min, col_max - col_min, row_max - row_min). -/
def clipWindow (transform : Affine) (height width : ℤ)
    (extent : GeoCoordinateExtent) : Window :=
  match extent.toTuple with
  | (left, bottom, right, top) =>
    let p1 := transform.invApply (left, top)
    let p2 := transform.invApply (right, bottom)
    let row_min := pytrunc p1.1
    let col_min := pytrunc p1.2
    let row_max := pytrunc p2.1
    let col_max := pytrunc p2.2
    let row_min := max 0 row_min
    let col_min := max 0 col_min
    let row_max := min height row_max
    let col_max := min width col_max
    ⟨col_min, row_min, col_max - col_min, row_max - row_min⟩

/-- The window computation as the specification words it: extract
(left, bottom, right, top) via the bounding-box mapping
left = start.longitude, bottom = start.latitude, right = end.longitude,
top = end.latitude, apply the inverse transform to the top-left corner
(left, top) to obtain (row, col) and to the bottom-right corner
(right, bottom) to obtain (row_max, col_max), truncate, clamp, and return
(col_min, row_min, col_max - col_min, row_max - row_min). -/
def clipWindowSpec (transform : Affine) (height width : ℤ)
    (extent : GeoCoordinateExtent) : Window :=
  let left := extent.start.longitude
  let bottom := extent.start.latitude
  let right := extent.«end».longitude
  let top := extent.«end».latitude
  let p1 := transform.invApply (left, top)
  let p2 := transform.invApply (right, bottom)
  let row_min := max 0 (pytrunc p1.1)
  let col_min := max 0 (pytrunc p1.2)
  let row_max := min height (pytrunc p2.1)
  let col_max := min width (pytrunc p2.2)
  ⟨col_min, row_min, col_max - col_min, row_max - row_min⟩

/-- The window computation as the amended claim words it: the code unpacks
extent.to_tuple(), so the corner fed to the inverse transform as
"(left, top)" is (start.longitude, start.latitude) and the corner fed as
"(right, bottom)" is (end.longitude, end.latitude); truncation, clamping
and the window formula are unchanged. -/
def clipWindowAmended (transform : Affine) (height width : ℤ)
    (extent : GeoCoordinateExtent) : Window :=
  let p1 := transform.invApply (extent.start.longitude, extent.start.latitude)
  let p2 := transform.invApply (extent.«end».longitude, extent.«end».latitude)
  let row_min := max 0 (pytrunc p1.1)
  let col_min := max 0 (pytrunc p1.2)
  let row_max := min height (pytrunc p2.1)
  let col_max := min width (pytrunc p2.2)
  ⟨col_min, row_min, col_max - col_min, row_max - row_min⟩

/-- Raster handle: the parts of a rasterio DatasetReader the core consumes,
with the first band as a row-major grid of samples. -/
structure Raster where
  transform : Affine
  width : ℤ
  height : ℤ
  data : List (List ℚ)
deriving Repr

/-- Windowed read of a band, modelling the external rasterio read for the
in-bounds windows the core produces: the rows row_off .. row_off+height-1
restricted to columns col_off .. col_off+width-1, flattened; a degenerate
(non-positive size) window reads no samples. -/
def readWindow (data : List (List ℚ)) (w : Window) : List ℚ :=
  if w.width ≤ 0 ∨ w.height ≤ 0 then []
  else
    (((data.drop w.row_off.toNat).take w.height.toNat).map
      (fun row => (row.drop w.col_off.toNat).take w.width.toNat)).flatten

/-- clip_tiff_to_extent (src/tiffcomposer/utils/extent.py lines 9-49):
computes the window from the extent and reads band 1 inside it; the
resulting samples are kept as a flat list, which is all the aggregation
consumes. -/
def clip_tiff_to_extent (src : Raster) (extent : GeoCoordinateExtent) :
    List ℚ :=
  readWindow src.data (clipWindow src.transform src.height src.width extent)

/-- Outcome of get_population_density_in_extent: a numeric value, the NaN
that numpy's mean of an empty array returns, the ValueError numpy's max and
min raise on an empty array, or the function's own ValueError for an
unknown mode string. -/
inductive AggOutcome where
  | value (v : ℚ)
  | nan
  | emptyReductionError
  | invalidModeError
deriving DecidableEq, Repr

/-- get_population_density_in_extent
(src/tiffcomposer/utils/extent.py lines 52-82): clips the raster to the
extent, filters to samples strictly greater than 0, and applies the mode.
Numpy semantics on the empty selection: np.mean returns NaN, np.max and
np.min raise ValueError on a zero-size reduction. -/
def get_population_density_in_extent (src : Raster)
    (extent : GeoCoordinateExtent) (mode : String) : AggOutcome :=
  let clipped_data := clip_tiff_to_extent src extent
  let filtered := clipped_data.filter (fun v => decide (0 < v))
  if mode = "mean" then
    match filtered with
    | [] => .nan
    | _ => .value (filtered.sum / (filtered.length : ℚ))
  else if mode = "max" then
    match filtered with
    | [] => .emptyReductionError
    | x :: xs => .value (xs.foldl max x)
  else if mode = "min" then
    match filtered with
    | [] => .emptyReductionError
    | x :: xs => .value (xs.foldl min x)
  else .invalidModeError

/-- Element access data[row][col] on the band grid; indices are only used
after the bounds check of the caller. -/
def arrayGet (data : List (List ℚ)) (r c : ℤ) : ℚ :=
  (data.getD r.toNat []).getD c.toNat 0

/-- get_value_from_coordinates (src/tiffcomposer/utils/pixel.py lines 8-27):
applies the inverse transform to coordinate.inverted.to_tuple() naming the
result (col, row); the inverted property re-validates through the
constructor and its error propagates.  If 0 <= col < width and
0 <= row < height the value data[int(row), int(col)] is returned, else no
value. -/
def get_value_from_coordinates (coordinate : GeoCoordinate)
    (transform : Affine) (width height : ℤ) (data : List (List ℚ)) :
    Except GeoCoordinateError (Option ℚ) :=
  match coordinate.inverted with
  | .error e => .error e
  | .ok inv =>
    let p := transform.invApply inv.toTuple
    let col := p.1
    let row := p.2
    if 0 ≤ col ∧ col < (width : ℚ) ∧ 0 ≤ row ∧ row < (height : ℚ) then
      .ok (some (arrayGet data (pytrunc row) (pytrunc col)))
    else
      .ok none

/-! The distance computation uses transcendental float operations; it is
modelled over the exact reals. -/

/-- Geographic coordinate over the reals, for the distance computation. -/
structure GeoCoordinateR where
  latitude : ℝ
  longitude : ℝ

noncomputable section

/-- math.radians: degrees to radians. -/
def radiansR (d : ℝ) : ℝ := d * (Real.pi / 180)

/-- np.degrees: radians to degrees. -/
def degreesR (r : ℝ) : ℝ := r * (180 / Real.pi)

/-- math.atan2 over the reals (two-argument arctangent with the quadrant
conventions of the C library). -/
def atan2 (y x : ℝ) : ℝ :=
  if 0 < x then Real.arctan (y / x)
  else if x < 0 then
    (if 0 ≤ y then Real.arctan (y / x) + Real.pi
     else Real.arctan (y / x) - Real.pi)
  else
    (if 0 < y then Real.pi / 2
     else if y < 0 then -(Real.pi / 2)
     else 0)

/-- Python int() truncation toward zero, on the reals. -/
def pytruncR (x : ℝ) : ℤ := if 0 ≤ x then ⌊x⌋ else ⌈x⌉

/-- earth_radius (coordinates.py lines 77-98): WGS84 radius of curvature at
a geodetic latitude given in degrees. -/
def earth_radius (latitude : ℝ) : ℝ :=
  let a : ℝ := 6378137.0
  let b : ℝ := 6356752.314245
  let lat_rad := radiansR latitude
  Real.sqrt
    (((a ^ 2 * Real.cos lat_rad) ^ 2 + (b ^ 2 * Real.sin lat_rad) ^ 2) /
     ((a * Real.cos lat_rad) ^ 2 + (b * Real.sin lat_rad) ^ 2))

/-- The haversine central angle c of distance_to
(coordinates.py lines 117-129): both coordinates converted to radians, the
haversine term a, and c = 2 * atan2(sqrt a, sqrt (1 - a)). -/
def centralAngle (self other : GeoCoordinateR) : ℝ :=
  let lat1 := radiansR self.latitude
  let lon1 := radiansR self.longitude
  let lat2 := radiansR other.latitude
  let lon2 := radiansR other.longitude
  let dlat := lat2 - lat1
  let dlon := lon2 - lon1
  let a := Real.sin (dlat / 2) ^ 2 +
    Real.cos lat1 * Real.cos lat2 * Real.sin (dlon / 2) ^ 2
  2 * atan2 (Real.sqrt a) (Real.sqrt (1 - a))

/-- The segment count of the step branch (coordinates.py line 139):
steps = max(int(c / step), 1), with Python int() truncation. -/
def stepsCount (c step : ℝ) : ℕ := (max (pytruncR (c / step)) 1).toNat

/-- The segment count as the specification words it:
steps = max(floor(c / step), 1). -/
def stepsCountSpec (c step : ℝ) : ℕ := (max ⌊c / step⌋ 1).toNat

/-- distance_to (coordinates.py lines 100-154): haversine central angle c;
if step == 0, earth_radius at the arithmetic mean of the two latitudes in
degrees times c; otherwise steps = max(int(c / step), 1), the steps + 1
evenly spaced fractions of np.linspace(0, 1, steps + 1), latitudes linearly
interpolated in radians, earth_radius evaluated at each interpolated
latitude converted back to degrees, and the sum of the first steps radii
each multiplied by c / steps. -/
def distance_to (self other : GeoCoordinateR) (step : ℝ) : ℝ :=
  let c := centralAngle self other
  if step = 0 then
    let midpoint_lat := (self.latitude + other.latitude) / 2
    earth_radius midpoint_lat * c
  else
    let steps := stepsCount c step
    let lat1 := radiansR self.latitude
    let dlat := radiansR other.latitude - lat1
    let fractions := (List.range (steps + 1)).map (fun i => (i : ℝ) / (steps : ℝ))
    let interpolated_lats := fractions.map (fun t => lat1 + t * dlat)
    let radii := interpolated_lats.map (fun lat => earth_radius (degreesR lat))
    ((radii.take steps).map (fun r => r * (c / (steps : ℝ)))).sum

/-- distance_to as the claim words it: identical haversine central angle;
if step == 0 the single-segment value earth_radius(mean latitude) * c; if
step > 0, steps = max(floor(c / step), 1), steps + 1 evenly spaced
interpolation fractions, latitude linearly interpolated in radians from
coordinate 1 to coordinate 2, earth_radius evaluated at each interpolated
latitude, and the sum of radius[i] * (c / steps) over the first steps
segments using the leading radius of each segment. -/
def distance_to_spec (self other : GeoCoordinateR) (step : ℝ) : ℝ :=
  let c := centralAngle self other
  if step = 0 then
    earth_radius ((self.latitude + other.latitude) / 2) * c
  else
    let steps := stepsCountSpec c step
    let lat1 := radiansR self.latitude
    let dlat := radiansR other.latitude - lat1
    let fractions := (List.range (steps + 1)).map (fun i => (i : ℝ) / (steps : ℝ))
    let interpolated_lats := fractions.map (fun t => lat1 + t * dlat)
    let radii := interpolated_lats.map (fun lat => earth_radius (degreesR lat))
    ((radii.take steps).map (fun r => r * (c / (steps : ℝ)))).sum

end

/-! Helper lemmas about the validated constructor. -/

theorem GeoCoordinate.new_ok {lat lon : ℚ} (h1 : -90 ≤ lat ∧ lat ≤ 90)
    (h2 : -180 ≤ lon ∧ lon ≤ 180) :
    GeoCoordinate.new lat lon = .ok ⟨lat, lon⟩ := by
  simp [GeoCoordinate.new, GeoCoordinate.setLatitudeState,
    GeoCoordinate.setLongitudeState, h1.1, h1.2, h2.1, h2.2]

theorem GeoCoordinate.new_error_lat {lat lon : ℚ}
    (h : ¬(-90 ≤ lat ∧ lat ≤ 90)) :
    GeoCoordinate.new lat lon = .error .latitudeOutOfRange := by
  simp [GeoCoordinate.new, GeoCoordinate.setLatitudeState, h]

theorem GeoCoordinate.new_error_lon {lat lon : ℚ} (h1 : -90 ≤ lat ∧ lat ≤ 90)
    (h2 : ¬(-180 ≤ lon ∧ lon ≤ 180)) :
    GeoCoordinate.new lat lon = .error .longitudeOutOfRange := by
  simp [GeoCoordinate.new, GeoCoordinate.setLatitudeState,
    GeoCoordinate.setLongitudeState, h1.1, h1.2, h2]

theorem GeoCoordinate.new_error_of {lat lon : ℚ}
    (h : ¬(-90 ≤ lat ∧ lat ≤ 90) ∨ ¬(-180 ≤ lon ∧ lon ≤ 180)) :
    ∃ e, GeoCoordinate.new lat lon = .error e := by
  by_cases hl : -90 ≤ lat ∧ lat ≤ 90
  · exact ⟨.longitudeOutOfRange,
      GeoCoordinate.new_error_lon hl (h.resolve_left (not_not_intro hl))⟩
  · exact ⟨.latitudeOutOfRange, GeoCoordinate.new_error_lat hl⟩

/-- C2, counterexample: on the extent with start = (40, -4) and
end = (41, -3), to_tuple() does not return the claimed
(left, bottom, right, top) ordering: it returns (-4, 41, -3, 40) instead
of (-4, 40, -3, 41). -/
theorem C2_counterexample :
    GeoCoordinateExtent.toTuple ⟨⟨40, -4⟩, ⟨41, -3⟩⟩ ≠
      GeoCoordinateExtent.bboxTupleSpec ⟨⟨40, -4⟩, ⟨41, -3⟩⟩ := by decide

/-- C2, amended: to_dict uses the claimed mapping left = start.longitude,
bottom = start.latitude, right = end.longitude, top = end.latitude, and
to_list agrees with to_tuple, but to_tuple and to_list return
(start.longitude, end.latitude, end.longitude, start.latitude) - that is
(left, top, right, bottom) under the dict mapping - and coincide with the
claimed (left, bottom, right, top) order exactly when the two latitudes
are equal. -/
theorem C2_extent_exports (e : GeoCoordinateExtent) :
    e.toDict = GeoCoordinateExtent.bboxDictSpec e ∧
    e.toList = [e.toTuple.1, e.toTuple.2.1, e.toTuple.2.2.1, e.toTuple.2.2.2] ∧
    (e.toTuple = GeoCoordinateExtent.bboxTupleSpec e ↔
      e.start.latitude = e.«end».latitude) := by
  refine ⟨rfl, rfl, ?_, ?_⟩
  · intro h
    have h2 := congrArg (fun t : ℚ × ℚ × ℚ × ℚ => t.2.1) h
    simpa [GeoCoordinateExtent.toTuple, GeoCoordinateExtent.bboxTupleSpec,
      eq_comm] using h2
  · intro h
    simp [GeoCoordinateExtent.toTuple, GeoCoordinateExtent.bboxTupleSpec, h]

/-- C3, counterexample: with the identity transform, a 10 by 10 raster and
the extent start = (2, 1), end = (5, 3), the window computed by the code
differs from the window described by the claim, because the code unpacks
to_tuple() whose "bottom" slot holds end.latitude and whose "top" slot
holds start.latitude. -/
theorem C3_counterexample :
    clipWindow ⟨1, 0, 0, 0, 1, 0⟩ 10 10 ⟨⟨2, 1⟩, ⟨5, 3⟩⟩ ≠
      clipWindowSpec ⟨1, 0, 0, 0, 1, 0⟩ 10 10 ⟨⟨2, 1⟩, ⟨5, 3⟩⟩ := by
  with_unfolding_all decide

/-- C3, amended: the window computation truncates (not rounds) both
corners, clamps row_min and col_min to at least 0 and row_max to at most
the raster height and col_max to at most the raster width, and returns
(col_min, row_min, col_max - col_min, row_max - row_min); but the corner
fed to the inverse transform as "(left, top)" is
(start.longitude, start.latitude) and the corner fed as "(right, bottom)"
is (end.longitude, end.latitude), since the code unpacks to_tuple(). -/
theorem C3_window_formula (t : Affine) (h w : ℤ) (e : GeoCoordinateExtent) :
    clipWindow t h w e = clipWindowAmended t h w e := rfl

/-- C4, counterexample: on an all-zero raster window the filtered selection
is empty, and mode "mean" silently returns NaN rather than failing with an
EmptySelectionError (no such error exists in the code). -/
theorem C4_counterexample :
    (clip_tiff_to_extent ⟨⟨1, 0, 0, 0, 1, 0⟩, 2, 2, [[0, 0], [0, 0]]⟩
        ⟨⟨0, 0⟩, ⟨2, 2⟩⟩).filter (fun v => decide (0 < v)) = [] ∧
    get_population_density_in_extent ⟨⟨1, 0, 0, 0, 1, 0⟩, 2, 2, [[0, 0], [0, 0]]⟩
        ⟨⟨0, 0⟩, ⟨2, 2⟩⟩ "mean" = .nan :=
  ⟨by with_unfolding_all rfl, by with_unfolding_all rfl⟩

/-- C4, amended: whenever the window's samples filtered to values strictly
greater than 0 are empty, mode "mean" silently returns numpy's NaN, while
modes "max" and "min" fail with numpy's zero-size-reduction ValueError;
no EmptySelectionError is raised anywhere. -/
theorem C4_empty_selection (src : Raster) (extent : GeoCoordinateExtent)
    (hempty : (clip_tiff_to_extent src extent).filter
      (fun v => decide (0 < v)) = []) :
    get_population_density_in_extent src extent "mean" = .nan ∧
    get_population_density_in_extent src extent "max" = .emptyReductionError ∧
    get_population_density_in_extent src extent "min" = .emptyReductionError := by
  refine ⟨?_, ?_, ?_⟩ <;>
    · simp only [get_population_density_in_extent]
      rw [hempty]
      simp

/-- Witness for C4_empty_selection at the all-zero raster. -/
theorem C4_witness :
    get_population_density_in_extent ⟨⟨1, 0, 0, 0, 1, 0⟩, 2, 2, [[0, 0], [0, 0]]⟩
        ⟨⟨0, 0⟩, ⟨2, 2⟩⟩ "mean" = .nan ∧
    get_population_density_in_extent ⟨⟨1, 0, 0, 0, 1, 0⟩, 2, 2, [[0, 0], [0, 0]]⟩
        ⟨⟨0, 0⟩, ⟨2, 2⟩⟩ "max" = .emptyReductionError ∧
    get_population_density_in_extent ⟨⟨1, 0, 0, 0, 1, 0⟩, 2, 2, [[0, 0], [0, 0]]⟩
        ⟨⟨0, 0⟩, ⟨2, 2⟩⟩ "min" = .emptyReductionError :=
  C4_empty_selection _ _ (by with_unfolding_all rfl)

/-- C5: construction with latitude outside [-90, 90] fails with the
latitude out-of-range error, construction with valid latitude but
longitude outside [-180, 180] fails with the longitude out-of-range error,
and each field setter checks before assigning, so a failed out-of-range
assignment returns the state unchanged: setting only longitude out of
range never corrupts a previously valid latitude. -/
theorem C5_bounds_validation (lat lon v : ℚ) :
    (¬(-90 ≤ lat ∧ lat ≤ 90) →
      GeoCoordinate.new lat lon = .error .latitudeOutOfRange) ∧
    ((-90 ≤ lat ∧ lat ≤ 90) → ¬(-180 ≤ lon ∧ lon ≤ 180) →
      GeoCoordinate.new lat lon = .error .longitudeOutOfRange) ∧
    (∀ c : GeoCoordinate, ¬(-90 ≤ v ∧ v ≤ 90) →
      GeoCoordinate.setLatitudeState c v = (c, some .latitudeOutOfRange)) ∧
    (∀ c : GeoCoordinate, ¬(-180 ≤ v ∧ v ≤ 180) →
      GeoCoordinate.setLongitudeState c v = (c, some .longitudeOutOfRange)) := by
  refine ⟨fun h => GeoCoordinate.new_error_lat h,
          fun h1 h2 => GeoCoordinate.new_error_lon h1 h2,
          fun c h => ?_, fun c h => ?_⟩
  · simp [GeoCoordinate.setLatitudeState, h]
  · simp [GeoCoordinate.setLongitudeState, h]

/-- Witness for C5_bounds_validation: latitude 100 is rejected at
construction, and assigning longitude 200 to the valid coordinate
(40, -4) fails and leaves the coordinate unchanged. -/
theorem C5_witness :
    GeoCoordinate.new 100 0 = .error .latitudeOutOfRange ∧
    GeoCoordinate.setLongitudeState ⟨40, -4⟩ 200 =
      (⟨40, -4⟩, some .longitudeOutOfRange) :=
  ⟨(C5_bounds_validation 100 0 200).1 (by norm_num),
   (C5_bounds_validation 100 0 200).2.2.2 ⟨40, -4⟩ (by norm_num)⟩

/-- C6, counterexample: (80, 0) is a valid coordinate, yet adding it to
itself raises the latitude out-of-range error, because the addition builds
its result through the validating constructor; the claim that such an
addition succeeds unvalidated is false. -/
theorem C6_counterexample :
    GeoCoordinate.new 80 0 = .ok ⟨80, 0⟩ ∧
    GeoCoordinate.add ⟨80, 0⟩ ⟨80, 0⟩ = .error .latitudeOutOfRange :=
  ⟨rfl, by with_unfolding_all rfl⟩

/-- C6, amended: component-wise addition and subtraction re-validate their
result through the constructor's bounds check, so whenever the sum (or
difference) has latitude outside [-90, 90] or longitude outside
[-180, 180] the operation raises a GeoCoordinateError instead of
succeeding. -/
theorem C6_add_sub_revalidate (a b : GeoCoordinate) :
    ((¬(-90 ≤ a.latitude + b.latitude ∧ a.latitude + b.latitude ≤ 90) ∨
      ¬(-180 ≤ a.longitude + b.longitude ∧ a.longitude + b.longitude ≤ 180)) →
      ∃ e, GeoCoordinate.add a b = .error e) ∧
    ((¬(-90 ≤ a.latitude - b.latitude ∧ a.latitude - b.latitude ≤ 90) ∨
      ¬(-180 ≤ a.longitude - b.longitude ∧ a.longitude - b.longitude ≤ 180)) →
      ∃ e, GeoCoordinate.sub a b = .error e) :=
  ⟨fun h => GeoCoordinate.new_error_of h, fun h => GeoCoordinate.new_error_of h⟩

/-- Witness for C6_add_sub_revalidate: (80,0) + (80,0) raises because the
summed latitude 160 is out of range, and (0,-170) - (0,20) raises because
the differenced longitude -190 is out of range. -/
theorem C6_witness :
    (∃ e, GeoCoordinate.add ⟨80, 0⟩ ⟨80, 0⟩ = .error e) ∧
    (∃ e, GeoCoordinate.sub ⟨0, -170⟩ ⟨0, 20⟩ = .error e) :=
  ⟨(C6_add_sub_revalidate ⟨80, 0⟩ ⟨80, 0⟩).1 (Or.inl (by norm_num)),
   (C6_add_sub_revalidate ⟨0, -170⟩ ⟨0, 20⟩).2 (Or.inr (by norm_num))⟩

/-- C7, counterexample: for the coordinate (0, 120) the pixel lookup
raises the latitude out-of-range error (through the inverted property)
instead of returning a value or no value, so the claim that it never
raises is false. -/
theorem C7_counterexample :
    get_value_from_coordinates ⟨0, 120⟩ ⟨1, 0, 0, 0, 1, 0⟩ 4 4 [[1, 2], [3, 4]] =
      .error .latitudeOutOfRange := rfl

/-- C7, amended: for every coordinate whose longitude lies in [-90, 90]
(so the internal inverted re-validation passes), if the
inverse-transformed (col, row) satisfies 0 <= col < width and
0 <= row < height then value_at truncates (col, row) to integers and
returns array[row][col], and otherwise it returns no value without
raising; for |longitude| > 90 the lookup raises instead (see C8). -/
theorem C7_pixel_lookup (c : GeoCoordinate) (t : Affine) (w h : ℤ)
    (data : List (List ℚ))
    (hlat1 : -90 ≤ c.latitude) (hlat2 : c.latitude ≤ 90)
    (hlon1 : -90 ≤ c.longitude) (hlon2 : c.longitude ≤ 90) :
    ((0 ≤ (t.invApply (c.longitude, c.latitude)).1 ∧
      (t.invApply (c.longitude, c.latitude)).1 < (w : ℚ) ∧
      0 ≤ (t.invApply (c.longitude, c.latitude)).2 ∧
      (t.invApply (c.longitude, c.latitude)).2 < (h : ℚ)) →
      get_value_from_coordinates c t w h data =
        .ok (some (arrayGet data (pytrunc (t.invApply (c.longitude, c.latitude)).2)
          (pytrunc (t.invApply (c.longitude, c.latitude)).1)))) ∧
    (¬(0 ≤ (t.invApply (c.longitude, c.latitude)).1 ∧
      (t.invApply (c.longitude, c.latitude)).1 < (w : ℚ) ∧
      0 ≤ (t.invApply (c.longitude, c.latitude)).2 ∧
      (t.invApply (c.longitude, c.latitude)).2 < (h : ℚ)) →
      get_value_from_coordinates c t w h data = .ok none) := by
  have hinv : c.inverted = Except.ok ⟨c.longitude, c.latitude⟩ :=
    GeoCoordinate.new_ok ⟨hlon1, hlon2⟩ ⟨by linarith, by linarith⟩
  constructor
  · intro hcond
    simp only [get_value_from_coordinates, hinv, GeoCoordinate.toTuple]
    rw [if_pos hcond]
  · intro hcond
    simp only [get_value_from_coordinates, hinv, GeoCoordinate.toTuple]
    rw [if_neg hcond]

/-- Witness for C7_pixel_lookup: with the identity transform the
coordinate (1, 2) maps inside a 4 by 4 array and the lookup returns the
sample at row 1, column 2. -/
theorem C7_witness :
    get_value_from_coordinates ⟨1, 2⟩ ⟨1, 0, 0, 0, 1, 0⟩ 4 4
      [[1, 2, 3, 4], [5, 6, 7, 8], [9, 10, 11, 12], [13, 14, 15, 16]] =
      .ok (some 7) := by
  have step := (C7_pixel_lookup ⟨1, 2⟩ ⟨1, 0, 0, 0, 1, 0⟩ 4 4
    [[1, 2, 3, 4], [5, 6, 7, 8], [9, 10, 11, 12], [13, 14, 15, 16]]
    (by norm_num) (by norm_num) (by norm_num) (by norm_num)).1
    (by norm_num [Affine.invApply, Affine.det])
  rw [step]
  with_unfolding_all rfl

/-- C8: for a coordinate with valid latitude, the inverted property
succeeds (returning the coordinate with latitude and longitude swapped)
exactly when the longitude lies in [-90, 90]; when |longitude| > 90 the
swap makes the new latitude out of range, inverted raises the latitude
out-of-range error, and the pixel lookup, which evaluates inverted, fails
with that same error. -/
theorem C8_inverted_validation (c : GeoCoordinate)
    (hlat1 : -90 ≤ c.latitude) (hlat2 : c.latitude ≤ 90) :
    ((∃ r, c.inverted = .ok r ∧ r.latitude = c.longitude ∧
        r.longitude = c.latitude) ↔
      (-90 ≤ c.longitude ∧ c.longitude ≤ 90)) ∧
    (¬(-90 ≤ c.longitude ∧ c.longitude ≤ 90) →
      c.inverted = .error .latitudeOutOfRange) ∧
    (∀ (t : Affine) (w h : ℤ) (data : List (List ℚ)),
      ¬(-90 ≤ c.longitude ∧ c.longitude ≤ 90) →
      get_value_from_coordinates c t w h data =
        .error .latitudeOutOfRange) := by
  refine ⟨⟨?_, ?_⟩, ?_, ?_⟩
  · rintro ⟨r, hr, -, -⟩
    by_contra hlon
    rw [show c.inverted = Except.error .latitudeOutOfRange from
      GeoCoordinate.new_error_lat hlon] at hr
    exact Except.noConfusion hr
  · intro hlon
    exact ⟨⟨c.longitude, c.latitude⟩,
      GeoCoordinate.new_ok hlon ⟨by linarith, by linarith⟩, rfl, rfl⟩
  · intro hlon
    exact GeoCoordinate.new_error_lat hlon
  · intro t w h data hlon
    have herr : c.inverted = Except.error .latitudeOutOfRange :=
      GeoCoordinate.new_error_lat hlon
    simp [get_value_from_coordinates, herr]

/-- Witness for C8_inverted_validation: the coordinate (0, 120) has valid
latitude, |longitude| > 90, and the pixel lookup on it fails with the
latitude out-of-range error. -/
theorem C8_witness :
    get_value_from_coordinates ⟨0, 120⟩ ⟨1, 0, 0, 0, 1, 0⟩ 5 5 [[1]] =
      .error .latitudeOutOfRange :=
  (C8_inverted_validation ⟨0, 120⟩ (by norm_num) (by norm_num)).2.2
    ⟨1, 0, 0, 0, 1, 0⟩ 5 5 [[1]] (by norm_num)

/-- C10: for every latitude in [-90, 90] and longitude in [-180, 180],
construction succeeds, the tuple and list exports are ordered
(latitude, longitude), the dict export is keyed "latitude"/"longitude",
and each conversion round-trips exactly through from_tuple, from_list and
from_dict. -/
theorem C10_roundtrip (lat lon : ℚ) (h1 : -90 ≤ lat) (h2 : lat ≤ 90)
    (h3 : -180 ≤ lon) (h4 : lon ≤ 180) :
    GeoCoordinate.new lat lon = .ok ⟨lat, lon⟩ ∧
    GeoCoordinate.toTuple ⟨lat, lon⟩ = (lat, lon) ∧
    GeoCoordinate.toList ⟨lat, lon⟩ = [lat, lon] ∧
    GeoCoordinate.toDict ⟨lat, lon⟩ = [("latitude", lat), ("longitude", lon)] ∧
    GeoCoordinate.from_tuple (GeoCoordinate.toTuple ⟨lat, lon⟩) = .ok ⟨lat, lon⟩ ∧
    GeoCoordinate.from_list (GeoCoordinate.toList ⟨lat, lon⟩) = .ok ⟨lat, lon⟩ ∧
    GeoCoordinate.from_dict (GeoCoordinate.toDict ⟨lat, lon⟩) = .ok ⟨lat, lon⟩ := by
  have hnew : GeoCoordinate.new lat lon = .ok ⟨lat, lon⟩ :=
    GeoCoordinate.new_ok ⟨h1, h2⟩ ⟨h3, h4⟩
  refine ⟨hnew, rfl, rfl, rfl, ?_, ?_, ?_⟩
  · show GeoCoordinate.new lat lon = .ok ⟨lat, lon⟩
    exact hnew
  · show (GeoCoordinate.new lat lon).mapError PyError.geo = .ok ⟨lat, lon⟩
    rw [hnew]
    rfl
  · show (GeoCoordinate.new lat lon).mapError PyError.geo = .ok ⟨lat, lon⟩
    rw [hnew]
    rfl

/-- Witness for C10_roundtrip at latitude 40, longitude -4. -/
theorem C10_witness :
    GeoCoordinate.new 40 (-4) = .ok ⟨40, -4⟩ ∧
    GeoCoordinate.toTuple ⟨40, -4⟩ = (40, -4) ∧
    GeoCoordinate.toList ⟨40, -4⟩ = [40, -4] ∧
    GeoCoordinate.toDict ⟨40, -4⟩ = [("latitude", 40), ("longitude", -4)] ∧
    GeoCoordinate.from_tuple (GeoCoordinate.toTuple ⟨40, -4⟩) = .ok ⟨40, -4⟩ ∧
    GeoCoordinate.from_list (GeoCoordinate.toList ⟨40, -4⟩) = .ok ⟨40, -4⟩ ∧
    GeoCoordinate.from_dict (GeoCoordinate.toDict ⟨40, -4⟩) = .ok ⟨40, -4⟩ :=
  C10_roundtrip 40 (-4) (by norm_num) (by norm_num) (by norm_num) (by norm_num)

/-! Lemmas about the real-valued distance model. -/

theorem atan2_nonneg (y x : ℝ) (hy : 0 ≤ y) : 0 ≤ atan2 y x := by
  unfold atan2
  split_ifs with h1 h2 h3 h4
  · have h : (0 : ℝ) ≤ y / x := div_nonneg hy h1.le
    calc (0 : ℝ) = Real.arctan 0 := Real.arctan_zero.symm
      _ ≤ Real.arctan (y / x) := Real.arctan_strictMono.monotone h
  · have ha := Real.neg_pi_div_two_lt_arctan (y / x)
    have hp := Real.pi_pos
    linarith
  · have hp := Real.pi_pos
    linarith
  · exact absurd hy (not_le.mpr h4)
  · exact le_refl 0

theorem centralAngle_nonneg (s o : GeoCoordinateR) : 0 ≤ centralAngle s o := by
  unfold centralAngle
  exact mul_nonneg (by norm_num) (atan2_nonneg _ _ (Real.sqrt_nonneg _))

theorem atan2_zero_one : atan2 0 1 = 0 := by
  unfold atan2
  rw [if_pos (by norm_num : (0 : ℝ) < 1)]
  simp [Real.arctan_zero]

theorem centralAngle_self (x : GeoCoordinateR) : centralAngle x x = 0 := by
  unfold centralAngle
  simp only [sub_self, zero_div, Real.sin_zero, ne_eq, OfNat.ofNat_ne_zero,
    not_false_eq_true, zero_pow, mul_zero, add_zero, zero_add,
    Real.sqrt_zero, sub_zero, Real.sqrt_one, atan2_zero_one]

theorem pytruncR_eq_floor {x : ℝ} (hx : 0 ≤ x) : pytruncR x = ⌊x⌋ := by
  simp [pytruncR, hx]

theorem stepsCount_eq_spec {c step : ℝ} (hc : 0 ≤ c) (hstep : 0 < step) :
    stepsCount c step = stepsCountSpec c step := by
  unfold stepsCount stepsCountSpec
  rw [pytruncR_eq_floor (div_nonneg hc hstep.le)]

/-- C1: distance_to computes the haversine central angle c from both
coordinates converted to radians and then, for step equal to 0, returns
earth_radius at the arithmetic mean of the two latitudes in degrees times
c, and for step greater than 0 computes steps = max(floor(c / step), 1)
(floor and the code's int() truncation agree because c is nonnegative),
generates steps + 1 evenly spaced interpolation fractions linearly
interpolating latitude in radians, evaluates earth_radius at each
interpolated latitude, and sums radius[i] * (c / steps) over the first
steps segments using the leading radius of each segment. -/
theorem C1_distance_algorithm (self other : GeoCoordinateR) (step : ℝ)
    (hstep : 0 ≤ step) :
    distance_to self other step = distance_to_spec self other step := by
  by_cases hz : step = 0
  · simp [distance_to, distance_to_spec, hz]
  · have hpos : 0 < step := lt_of_le_of_ne hstep (Ne.symm hz)
    simp only [distance_to, distance_to_spec, if_neg hz]
    rw [stepsCount_eq_spec (centralAngle_nonneg self other) hpos]

/-- Witness for C1_distance_algorithm at the coordinates (0, 0), (0, 1)
and step 0. -/
theorem C1_witness :
    distance_to ⟨0, 0⟩ ⟨0, 1⟩ 0 = distance_to_spec ⟨0, 0⟩ ⟨0, 1⟩ 0 :=
  C1_distance_algorithm ⟨0, 0⟩ ⟨0, 1⟩ 0 (le_refl 0)

/-- C9: for every coordinate x and step at least 0, the distance from x
to itself is 0 - the central angle c of coincident points is 0, so both
the direct branch and the step branch return 0 - and the step branch's
division c / steps is guarded because the segment count is at least 1. -/
theorem C9_self_distance_zero (x : GeoCoordinateR) (step : ℝ)
    (hstep : 0 ≤ step) :
    distance_to x x step = 0 ∧ 1 ≤ stepsCount (centralAngle x x) step := by
  constructor
  · by_cases hz : step = 0
    · simp [distance_to, hz, centralAngle_self]
    · simp [distance_to, hz, centralAngle_self, Function.comp_def,
        List.map_const', List.take_replicate, List.sum_replicate]
  · have h := le_max_right (pytruncR (centralAngle x x / step)) 1
    unfold stepsCount
    omega

/-- Witness for C9_self_distance_zero at the coordinate (0, 0) and
step 0. -/
theorem C9_witness :
    distance_to ⟨0, 0⟩ ⟨0, 0⟩ 0 = 0 ∧
    1 ≤ stepsCount (centralAngle ⟨0, 0⟩ ⟨0, 0⟩) 0 :=
  C9_self_distance_zero ⟨0, 0⟩ 0 (le_refl 0)

end TiffComposer
